import Mathlib

/-!
Verification development for the TransactIQ compatibility-layer API
(`src/index.js`): a selector registry mapping EVM function signatures to
Injective/Cosmos message types, a calldata/intent decoder, a translation
engine, a compatibility scorer and a migration estimator.

The embedding below translates the JavaScript source into Lean.  Machine
words are `Nat` with explicit masking; JS `undefined` becomes `Option`;
JS `||` (falsy on the empty string) is modelled explicitly.  The selector
derivation `ethers.id(sig).slice(0, 10)` is keccak-256 of the UTF-8 bytes
of the signature (all registry signatures are ASCII), rendered as lowercase
hex with a `0x` marker.
-/

namespace TransactIQ

/-! ### Keccak-256 (the hash behind `ethers.id`) -/

def mask64 : Nat := 2 ^ 64 - 1

/-- Rotate a 64-bit lane left by `n` (0 ≤ n < 64). -/
def rotl64 (x n : Nat) : Nat :=
  (((x <<< n) ||| (x >>> (64 - n)))) &&& mask64

/-- The 24 keccak-f[1600] round constants. -/
def rcList : List Nat :=
  [0x0000000000000001, 0x0000000000008082, 0x800000000000808a, 0x8000000080008000,
   0x000000000000808b, 0x0000000080000001, 0x8000000080008081, 0x8000000000008009,
   0x000000000000008a, 0x0000000000000088, 0x0000000080008009, 0x000000008000000a,
   0x000000008000808b, 0x800000000000008b, 0x8000000000008089, 0x8000000000008003,
   0x8000000000008002, 0x8000000000000080, 0x000000000000800a, 0x800000008000000a,
   0x8000000080008081, 0x8000000000008080, 0x0000000080000001, 0x8000000080008008]

/-- Rho rotation offsets: `rhoRows[x][y]` is the offset of lane `(x, y)`. -/
def rhoRows : List (List Nat) :=
  [[0, 36, 3, 41, 18],
   [1, 44, 10, 45, 2],
   [62, 6, 43, 15, 61],
   [28, 55, 25, 21, 56],
   [27, 20, 39, 8, 14]]

def rhoOff (x y : Nat) : Nat := (rhoRows.getD x []).getD y 0

/-- Lane accessor for a 25-lane state (index `x + 5*y`). -/
def lane (A : List Nat) (i : Nat) : Nat := A.getD i 0

def theta (A : List Nat) : List Nat :=
  let C := (List.range 5).map fun x =>
    lane A x ^^^ lane A (x + 5) ^^^ lane A (x + 10) ^^^ lane A (x + 15) ^^^ lane A (x + 20)
  let D := (List.range 5).map fun x =>
    lane C ((x + 4) % 5) ^^^ rotl64 (lane C ((x + 1) % 5)) 1
  (List.range 25).map fun t => lane A t ^^^ lane D (t % 5)

def rhoPi (A : List Nat) : List Nat :=
  (List.range 25).map fun t =>
    let X := t % 5
    let Y := t / 5
    let x := (X + 3 * Y) % 5
    let y := X
    rotl64 (lane A (x + 5 * y)) (rhoOff x y)

def chi (A : List Nat) : List Nat :=
  (List.range 25).map fun t =>
    let X := t % 5
    let Y := t / 5
    lane A t ^^^ ((lane A ((X + 1) % 5 + 5 * Y) ^^^ mask64) &&& lane A ((X + 2) % 5 + 5 * Y))

def keccakRound (A : List Nat) (rc : Nat) : List Nat :=
  match chi (rhoPi (theta A)) with
  | [] => []
  | a0 :: rest => (a0 ^^^ rc) :: rest

def keccakF (A : List Nat) : List Nat := rcList.foldl keccakRound A

/-- keccak pad10*1 for rate 136 bytes (keccak-256 domain byte 0x01). -/
def padKeccak (msg : List Nat) : List Nat :=
  let q := 136 - msg.length % 136
  if q = 1 then msg ++ [0x81]
  else msg ++ [0x01] ++ List.replicate (q - 2) 0 ++ [0x80]

/-- Eight little-endian bytes to one 64-bit lane. -/
def bytesToLane (bs : List Nat) : Nat :=
  bs.foldr (fun b acc => acc * 256 + b) 0

/-- XOR one 136-byte block into the first 17 lanes of the state. -/
def xorBlock (A : List Nat) (block : List Nat) : List Nat :=
  (List.range 25).map fun i =>
    if i < 17 then lane A i ^^^ bytesToLane ((block.drop (8 * i)).take 8) else lane A i

/-- Absorb `blocks` rate-sized blocks from `p` into the state. -/
def absorbAux : Nat → List Nat → List Nat → List Nat
  | 0, A, _ => A
  | blocks + 1, A, p => absorbAux blocks (keccakF (xorBlock A (p.take 136))) (p.drop 136)

/-- Absorb a padded message (its length is a multiple of 136). -/
def absorb (A : List Nat) (p : List Nat) : List Nat :=
  absorbAux (p.length / 136) A p

/-- One 64-bit lane to eight little-endian bytes. -/
def laneToBytes (x : Nat) : List Nat :=
  (List.range 8).map fun i => (x >>> (8 * i)) &&& 255

/-- keccak-256 of a byte sequence: 32-byte digest. -/
def keccak256 (msg : List Nat) : List Nat :=
  let A := absorb (List.replicate 25 0) (padKeccak msg)
  laneToBytes (lane A 0) ++ laneToBytes (lane A 1) ++ laneToBytes (lane A 2) ++ laneToBytes (lane A 3)

def hexDigit (n : Nat) : Char :=
  if n < 10 then Char.ofNat (48 + n) else Char.ofNat (87 + n)

def byteToHex (b : Nat) : List Char := [hexDigit (b / 16), hexDigit (b % 16)]

def bytesToHex (bs : List Nat) : String := ⟨(bs.map byteToHex).flatten⟩

/-- UTF-8 bytes of a string; all strings fed to the hash in this program
are ASCII, where UTF-8 bytes coincide with the character codes. -/
def strBytes (s : String) : List Nat := s.data.map (fun c => c.toNat)

/-- `ethers.id(s)`: keccak-256 of the UTF-8 bytes of `s` as a 0x-prefixed
lowercase hex string. -/
def ethersId (s : String) : String := "0x" ++ bytesToHex (keccak256 (strBytes s))

/-- `s.slice(0, n)` / `s.substring(0, n)`: JS slicing counts UTF-16 units,
which coincide with characters for the ASCII strings this program handles. -/
def strTake (s : String) (n : Nat) : String := ⟨s.data.take n⟩

/-- `s.slice(n)`: the characters from index `n` on. -/
def strDrop (s : String) (n : Nat) : String := ⟨s.data.drop n⟩

/-- `s.length` in JS (UTF-16 units; characters for ASCII input). -/
def strLen (s : String) : Nat := s.data.length

/-- ASCII lowercasing of one character, as `toLowerCase` does on ASCII. -/
def lowerChar (c : Char) : Char :=
  if 65 ≤ c.toNat ∧ c.toNat ≤ 90 then Char.ofNat (c.toNat + 32) else c

/-- `s.toLowerCase()` for ASCII strings. -/
def strLower (s : String) : String := ⟨s.data.map lowerChar⟩

/-- `ethers.id(s).slice(0, 10)`: the 4-byte function selector. -/
def selectorOf (s : String) : String := strTake (ethersId s) 10

/-! ### Data model: registry entries (`SELECTOR_DB`) -/

/-- `injectiveMapping.matchType` values used by the registry. -/
inductive MatchType
  | DIRECT
  | SEMANTIC
  | COMPOSITE
  | UNSUPPORTED
deriving DecidableEq, Repr

/-- An `injectiveMapping` record: target message type (`null` for
unsupported entries), optional composite steps, confidence, match type and
optional notes.  The source's confidence is a decimal in [0,1] with two
digits (0.98, 0.85, ...); it is stored here in exact hundredths (98, 85,
...) so that 0 stays 0 and the order and equalities are preserved. -/
structure Mapping where
  msgType : Option String
  steps : List String
  confidence : Nat
  matchType : MatchType
  notes : Option String
deriving DecidableEq, Repr

/-- One `SELECTOR_DB` entry. -/
structure FuncInfo where
  name : String
  signature : String
  paramTypes : List String
  paramNames : List String
  category : String
  injectiveMapping : Mapping
deriving DecidableEq, Repr

def transferInfo : FuncInfo :=
  ⟨"transfer", "transfer(address,uint256)", ["address", "uint256"], ["to", "amount"], "token",
   ⟨some "/cosmos.bank.v1beta1.MsgSend", [], 98, .DIRECT, none⟩⟩

def approveInfo : FuncInfo :=
  ⟨"approve", "approve(address,uint256)", ["address", "uint256"], ["spender", "amount"], "token",
   ⟨some "/cosmos.authz.v1beta1.MsgGrant", [], 85, .SEMANTIC,
    some "Injective uses authz module instead of per-token approvals"⟩⟩

def transferFromInfo : FuncInfo :=
  ⟨"transferFrom", "transferFrom(address,address,uint256)", ["address", "address", "uint256"],
   ["from", "to", "amount"], "token",
   ⟨some "/cosmos.bank.v1beta1.MsgSend", [], 80, .SEMANTIC, some "Requires authz grant check"⟩⟩

def swapExactTokensInfo : FuncInfo :=
  ⟨"swapExactTokensForTokens", "swapExactTokensForTokens(uint256,uint256,address[],address,uint256)",
   ["uint256", "uint256", "address[]", "address", "uint256"],
   ["amountIn", "amountOutMin", "path", "to", "deadline"], "swap",
   ⟨some "/injective.exchange.v1beta1.MsgCreateSpotMarketOrder", [], 90, .SEMANTIC,
    some "AMM swap converts to orderbook market order"⟩⟩

def swapExactETHInfo : FuncInfo :=
  ⟨"swapExactETHForTokens", "swapExactETHForTokens(uint256,address[],address,uint256)",
   ["uint256", "address[]", "address", "uint256"],
   ["amountOutMin", "path", "to", "deadline"], "swap",
   ⟨some "COMPOSITE",
    ["/injective.exchange.v1beta1.MsgDeposit", "/injective.exchange.v1beta1.MsgCreateSpotMarketOrder"],
    85, .COMPOSITE, some "Requires deposit to subaccount first"⟩⟩

def addLiquidityInfo : FuncInfo :=
  ⟨"addLiquidity", "addLiquidity(address,address,uint256,uint256,uint256,uint256,address,uint256)",
   ["address", "address", "uint256", "uint256", "uint256", "uint256", "address", "uint256"],
   ["tokenA", "tokenB", "amountADesired", "amountBDesired", "amountAMin", "amountBMin", "to", "deadline"],
   "liquidity",
   ⟨none, [], 0, .UNSUPPORTED, some "Injective uses orderbook, not AMM. Consider market making."⟩⟩

def stakeInfo : FuncInfo :=
  ⟨"stake", "stake(uint256)", ["uint256"], ["amount"], "staking",
   ⟨some "/cosmos.staking.v1beta1.MsgDelegate", [], 95, .DIRECT, none⟩⟩

def withdrawInfo : FuncInfo :=
  ⟨"withdraw", "withdraw(uint256)", ["uint256"], ["amount"], "staking",
   ⟨some "/cosmos.staking.v1beta1.MsgUndelegate", [], 95, .DIRECT, none⟩⟩

def getRewardInfo : FuncInfo :=
  ⟨"getReward", "getReward()", [], [], "staking",
   ⟨some "/cosmos.distribution.v1beta1.MsgWithdrawDelegatorReward", [], 95, .DIRECT, none⟩⟩

def flashLoanInfo : FuncInfo :=
  ⟨"flashLoan", "flashLoan(address,address[],uint256[],uint256[],address,bytes,uint16)",
   ["address", "address[]", "uint256[]", "uint256[]", "address", "bytes", "uint16"],
   ["receiverAddress", "assets", "amounts", "modes", "onBehalfOf", "params", "referralCode"], "flash",
   ⟨none, [], 0, .UNSUPPORTED, some "Flash loans not supported on Injective"⟩⟩

/-- The `SELECTOR_DB` object: selector key → entry, in source order. -/
def SELECTOR_DB : List (String × FuncInfo) :=
  [("0xa9059cbb", transferInfo),
   ("0x095ea7b3", approveInfo),
   ("0x23b872dd", transferFromInfo),
   ("0x38ed1739", swapExactTokensInfo),
   ("0x7ff36ab5", swapExactETHInfo),
   ("0xe8e33700", addLiquidityInfo),
   ("0xa694fc3a", stakeInfo),
   ("0x2e1a7d4d", withdrawInfo),
   ("0x3d18b912", getRewardInfo),
   ("0xab9c4b5d", flashLoanInfo)]

/-- `SELECTOR_DB[selector]`: property lookup on the object literal. -/
def dbLookup (sel : String) : Option FuncInfo :=
  (SELECTOR_DB.find? (fun p => p.1 == sel)).map (fun p => p.2)

/-! ### JS truthiness on strings

`a || b` in JS returns `b` when `a` is `undefined` **or** the empty string
(both falsy); a default parameter `denom = 'inj'` instead fires only on
`undefined`. -/

/-- `a || b` where `a : String | undefined` and `b : String`. -/
def jsOrS (a : Option String) (b : String) : String :=
  match a with
  | some s => if s = "" then b else s
  | none => b

/-- `a || b` where both sides may be `undefined`. -/
def jsOr (a b : Option String) : Option String :=
  match a with
  | some s => if s = "" then b else a
  | none => b

/-! ### Calldata decoder -/

/-- A decoded parameter `{name, type, value}`; the intent path supplies no
`type`. -/
structure Param where
  name : String
  type : Option String
  value : String
deriving DecidableEq, Repr

/-- The object `decodeCalldata` returns (and the intent route fabricates):
optional fields are absent on the failure shapes. -/
structure DecodedCall where
  selector : String
  functionName : Option String
  signature : Option String
  category : Option String
  parameters : List Param
  decoded : Bool
  error : Option String
deriving DecidableEq, Repr

/-- The external ABI-decode capability (`ethers.AbiCoder.decode`): given
the parameter types and the `0x`-prefixed data, a list of stringified
values or a failure message. -/
def AbiDecoder : Type := List String → String → Except String (List String)

/-- Zip names/types/values into `Param` records as the source's
`paramNames.map((name, i) => ...)` does on an arity-correct decode. -/
def zipParams : List String → List String → List String → List Param
  | n :: ns, t :: ts, v :: vs => ⟨n, some t, v⟩ :: zipParams ns ts vs
  | _, _, _ => []

/-- `decodeCalldata(calldata)`: `Except.error` models the thrown
`Error('Invalid calldata')`; every other outcome is a returned object. -/
def decodeCalldata (abi : AbiDecoder) (calldata : String) : Except String DecodedCall :=
  if ¬ (['0', 'x'] = calldata.data.take 2) ∨ strLen calldata < 10 then
    .error "Invalid calldata"
  else
    let selector := strLower (strTake calldata 10)
    let paramsData := "0x" ++ strDrop calldata 10
    match dbLookup selector with
    | none => .ok ⟨selector, none, none, none, [], false, some "Unknown selector"⟩
    | some funcInfo =>
      if 0 < funcInfo.paramTypes.length ∧ 2 < strLen paramsData then
        match abi funcInfo.paramTypes paramsData with
        | .error e => .ok ⟨selector, some funcInfo.name, none, none, [], false, some e⟩
        | .ok vals =>
          .ok ⟨selector, some funcInfo.name, some funcInfo.signature, some funcInfo.category,
               zipParams funcInfo.paramNames funcInfo.paramTypes vals, true, none⟩
      else
        .ok ⟨selector, some funcInfo.name, some funcInfo.signature, some funcInfo.category,
             [], true, none⟩

/-! ### Market map, subaccounts and message builders -/

/-- `MARKET_MAP['INJ-USDT'].marketId` (the only key the engine reads). -/
def injUsdtMarketId : String :=
  "0x0611780ba69656949525013d947713300f56c37b6175e02f26bffa495c3208fe"

/-- Remove the first occurrence of `pat` from `l`
(JS `String.replace(pat, '')` replaces only the first match). -/
def removeFirst (pat : List Char) : List Char → List Char
  | [] => []
  | c :: cs =>
    if pat = (c :: cs).take pat.length then (c :: cs).drop pat.length
    else c :: removeFirst pat cs

/-- `padStart(40, '0')`. -/
def padStart40 (l : List Char) : List Char :=
  List.replicate (40 - l.length) '0' ++ l

/-- `getSubaccountId(address)`. -/
def getSubaccountId (address : String) : String :=
  "0x" ++ (⟨padStart40 (removeFirst "inj".data address.data)⟩ : String)
    ++ (⟨List.replicate 24 '0'⟩ : String)

/-- Target-dialect messages, one constructor per `Builders` entry.  Fields
that the builder computes from its arguments (subaccount id, fee recipient)
are stored explicitly; fields that are source-level constants (`price: '0'`,
`trigger_price: '0'`, the `inj` denom of staking messages, the
`SendAuthorization` type tag of a grant) are left implicit in the
constructor's meaning.  A JS `undefined` amount is `none`.  The grant's
`expiration` is kept as the millisecond instant `now + 365*24*60*60*1000`
whose ISO-8601 rendering (an injective function of the instant) the source
stores. -/
inductive Msg
  | send (from_address : String) (to_address : Option String) (denom : String)
      (amount : Option String)
  | delegate (delegator : String) (validator : String) (amount : Option String)
  | undelegate (delegator : String) (validator : String) (amount : Option String)
  | withdrawReward (delegator : String) (validator : String)
  | grant (granter : String) (grantee : String) (denom : String) (amount : Option String)
      (expirationMs : Nat)
  | spotOrder (sender : String) (marketId : String) (subaccountId : String)
      (feeRecipient : String) (quantity : Option String) (orderType : Nat)
  | deposit (sender : String) (subaccountId : String) (denom : String) (amount : String)
deriving DecidableEq, Repr

/-! ### Translation engine (`translate`) -/

/-- Per-request context bag; every field may be absent. -/
structure Ctx where
  senderAddress : Option String
  recipientAddress : Option String
  spenderAddress : Option String
  validator : Option String
  denom : Option String
  ethValue : Option String
deriving DecidableEq, Repr

def emptyCtx : Ctx := ⟨none, none, none, none, none, none⟩

/-- `params[p.name] = p.value` assignments in a loop: the last assignment
to a name wins. -/
def lookupParam (ps : List Param) (n : String) : Option String :=
  (ps.reverse.find? (fun p => p.name == n)).map (fun p => p.value)

/-- Render a possibly-`undefined` value inside a template literal. -/
def tmpl (o : Option String) : String := o.getD "undefined"

/-- `translate`'s return value: the failure object
`{success:false, error:{code, message}}` or the success object carrying
the messages, explanation and metadata. -/
inductive TransResult
  | failure (code : String) (message : Option String)
  | success (messages : List Msg) (explanation : String) (confidence : Nat)
      (matchType : MatchType) (warnings : List String) (originalFunction : String)
deriving DecidableEq, Repr

/-- `mapping.notes ? [{message: mapping.notes}] : []` (empty string falsy). -/
def warningsOf (notes : Option String) : List String :=
  match notes with
  | some s => if s = "" then [] else [s]
  | none => []

/-- The translation engine.  `now` is the value of `Date.now()` at the
moment of the call (milliseconds); only the `approve` branch reads the
clock, for the grant expiration. -/
def translate (decoded : DecodedCall) (ctx : Ctx) (now : Nat) : TransResult :=
  let sender := jsOrS ctx.senderAddress "inj1xxx"
  match dbLookup decoded.selector with
  | none => .failure "UNSUPPORTED" (some "Function not supported")
  | some funcInfo =>
    let mapping := funcInfo.injectiveMapping
    if mapping.matchType = .UNSUPPORTED then
      .failure "UNSUPPORTED_PATTERN" mapping.notes
    else
      let params := lookupParam decoded.parameters
      let done := fun (messages : List Msg) (explanation : String) =>
        TransResult.success messages explanation mapping.confidence mapping.matchType
          (warningsOf mapping.notes) funcInfo.signature
      match funcInfo.name with
      | "transfer" =>
        done [.send sender
                (some (jsOrS ctx.recipientAddress (jsOrS (params "to") "inj1recipient")))
                (ctx.denom.getD "inj") (params "amount")]
          ("Transfer " ++ tmpl (params "amount") ++ " tokens")
      | "approve" =>
        done [.grant sender
                (jsOrS ctx.spenderAddress (jsOrS (params "spender") "inj1spender"))
                (ctx.denom.getD "inj") (params "amount")
                (now + 365 * 24 * 60 * 60 * 1000)]
          "Grant spending authorization"
      | "transferFrom" =>
        done [.send (jsOrS (params "from") sender)
                (jsOr (params "to") ctx.recipientAddress)
                (ctx.denom.getD "inj") (params "amount")]
          "Transfer from authorized account"
      | "swapExactTokensForTokens" =>
        done [.spotOrder sender injUsdtMarketId (getSubaccountId sender) sender
                (params "amountIn") 1]
          "Swap via spot market order"
      | "swapExactETHForTokens" =>
        done [.deposit sender (getSubaccountId sender) "inj" (jsOrS ctx.ethValue "0"),
              .spotOrder sender injUsdtMarketId (getSubaccountId sender) sender
                (some (jsOrS ctx.ethValue "0")) 2]
          "Deposit then swap (2-step)"
      | "stake" =>
        done [.delegate sender (jsOrS ctx.validator "injvaloper1xxx") (params "amount")]
          ("Delegate " ++ tmpl (params "amount") ++ " INJ")
      | "withdraw" =>
        done [.undelegate sender (jsOrS ctx.validator "injvaloper1xxx") (params "amount")]
          ("Undelegate " ++ tmpl (params "amount") ++ " INJ")
      | "getReward" =>
        done [.withdrawReward sender (jsOrS ctx.validator "injvaloper1xxx")]
          "Claim staking rewards"
      | _ => .failure "NO_BUILDER" (some ("No builder for " ++ funcInfo.name))

/-! ### Translate route: intent normalization and error mapping -/

/-- The route's fixed `intentMap` from action mnemonics to selectors. -/
def intentMap (action : String) : Option String :=
  if action = "transfer" then some "0xa9059cbb"
  else if action = "approve" then some "0x095ea7b3"
  else if action = "swap" then some "0x38ed1739"
  else if action = "stake" then some "0xa694fc3a"
  else if action = "unstake" then some "0x2e1a7d4d"
  else if action = "claim" then some "0x3d18b912"
  else none

/-- The intent branch of the translate route: resolve the action, copy the
entry's metadata, and turn the caller's parameter bag (already stringified,
in supplied order) into `parameters`.  `none` models the `UNKNOWN_INTENT`
rejection. -/
def normalizeIntent (action : String) (params : List (String × String)) : Option DecodedCall :=
  (intentMap action).bind fun selector =>
    (dbLookup selector).map fun funcInfo =>
      ⟨selector, some funcInfo.name, some funcInfo.signature, some funcInfo.category,
       params.map (fun nv => ⟨nv.1, none, nv.2⟩), true, none⟩

/-- Transport-level outcome of the translate route: the 200 body, or an
error response with its HTTP status and error code. -/
inductive HttpOut
  | ok200 (r : TransResult)
  | err (status : Nat) (code : String) (message : Option String)
deriving DecidableEq, Repr

/-- The calldata branch of `POST /api/v1/translate`: a thrown decode error
is caught by the route's try/catch (500 `ERROR`); a returned object with
`decoded: false` is rejected as 400 `DECODE_FAILED` with the object's
`error`; an unsuccessful translation is returned with status 422. -/
def translateCalldataRoute (abi : AbiDecoder) (data : String) (ctx : Ctx) (now : Nat) : HttpOut :=
  match decodeCalldata abi data with
  | .error e => .err 500 "ERROR" (some e)
  | .ok decoded =>
    if decoded.decoded = false then .err 400 "DECODE_FAILED" decoded.error
    else
      match translate decoded ctx now with
      | .failure c m => .err 422 c m
      | r => .ok200 r

/-! ### Compatibility scorer (`POST /api/v1/compatibility`) -/

/-- Is `needle` a leading segment of `hay`? -/
def leadsWith (needle hay : List Char) : Bool :=
  match needle, hay with
  | [], _ => true
  | a :: as, b :: bs => a == b && leadsWith as bs
  | _ :: _, [] => false

/-- JS `String.includes`: does `hay` contain `needle` as a contiguous run? -/
def hasSub (needle : List Char) : List Char → Bool
  | [] => needle.isEmpty
  | b :: bs => leadsWith needle (b :: bs) || hasSub needle bs

/-- One per-pattern verdict.  The heuristic branches set only
`pattern`/`status`/`notes`, leaving equivalent and confidence absent. -/
structure PatternResult where
  pattern : String
  status : String
  injectiveEquivalent : Option String
  confidence : Option Nat
  notes : Option String
deriving DecidableEq, Repr

/-- Classify one pattern string: derive its selector, look it up; a miss
falls back to the lexical flash/liquidity keyword heuristics. -/
def scorePattern (pattern : String) : PatternResult :=
  let selector := selectorOf pattern
  match dbLookup selector with
  | none =>
    let lower := strLower pattern
    if hasSub "flash".data lower.data then
      ⟨pattern, "UNSUPPORTED", none, none, some "Flash loans not supported"⟩
    else if hasSub "liquidity".data lower.data then
      ⟨pattern, "UNSUPPORTED", none, none, some "AMM not supported"⟩
    else
      ⟨pattern, "UNKNOWN", none, none, some "Not in database"⟩
  | some funcInfo =>
    let m := funcInfo.injectiveMapping
    ⟨pattern,
     if m.matchType = .UNSUPPORTED then "UNSUPPORTED"
     else if m.matchType = .DIRECT then "SUPPORTED" else "PARTIAL",
     m.msgType, some m.confidence, m.notes⟩

/-- An ABI item as the two report routes read it: `{type, name, inputs}`
with only the input types retained. -/
structure AbiFunc where
  type : String
  name : String
  inputs : List String
deriving DecidableEq, Repr

/-- `name(type,type,...)` signature of an ABI function shape. -/
def sigOf (f : AbiFunc) : String :=
  f.name ++ "(" ++ String.intercalate "," f.inputs ++ ")"

/-- `Math.round(((supported + partial*0.5) / total) * 100)` for
nonnegative counts: round-half-up in exact arithmetic. -/
def roundPct (supported partial' total : Nat) : Nat :=
  (200 * supported + 100 * partial' + total) / (2 * total)

/-- The aggregate block of a compatibility response. -/
structure CompatOut where
  score : Nat
  status : String
  summary : String
  patterns : List PatternResult
  recommendations : List String
deriving DecidableEq, Repr

/-- The compatibility route past its input validation: merge explicit
patterns with signatures derived from the ABI, classify each, and
aggregate. -/
def compatibility (patterns : List String) (contractAbi : List AbiFunc) : CompatOut :=
  let allPatterns := patterns ++
    ((contractAbi.filter (fun i => i.type == "function")).map sigOf)
  let results := allPatterns.map scorePattern
  let supported := (results.filter (fun r => r.status == "SUPPORTED")).length
  let partial' := (results.filter (fun r => r.status == "PARTIAL")).length
  let unsupported :=
    (results.filter (fun r => r.status == "UNSUPPORTED" || r.status == "UNKNOWN")).length
  let score := roundPct supported partial' results.length
  ⟨score,
   if 80 ≤ score then "MOSTLY_COMPATIBLE"
   else if 50 ≤ score then "PARTIALLY_COMPATIBLE" else "INCOMPATIBLE",
   toString supported ++ "/" ++ toString results.length ++ " supported",
   results,
   (if supported < results.length then ["Some patterns need workarounds"] else []) ++
   (if 0 < unsupported then ["Unsupported patterns require redesign"] else [])⟩

/-! ### Migration estimator (`POST /api/v1/migrate/estimate`)

Modelled through the classification, counts, complexity figure and
feasibility band.  The hour figures multiply the band bounds by the
floating-point `Math.log2(total + 1)`; floating point is not embedded, and
no claim touches the hour fields. -/

/-- One line of `analysis.functions.details`. -/
structure MigDetail where
  name : String
  signature : String
  status : String
  migrationPath : Option String
deriving DecidableEq, Repr

/-- Classify one ABI function: derive the signature's selector, look it up,
then branch exactly as the route does (`DIRECT` → supported, `UNSUPPORTED`
→ unsupported, anything else — `SEMANTIC`, `COMPOSITE` or no entry at
all — → partial with a `Custom handler` fallback path). -/
def migDetail (f : AbiFunc) : MigDetail :=
  let sig := sigOf f
  let info := dbLookup (selectorOf sig)
  match info with
  | some i =>
    if i.injectiveMapping.matchType = .DIRECT then
      ⟨f.name, sig, "supported", i.injectiveMapping.msgType⟩
    else if i.injectiveMapping.matchType = .UNSUPPORTED then
      ⟨f.name, sig, "unsupported", some "Requires redesign"⟩
    else
      ⟨f.name, sig, "partial", some (jsOrS i.injectiveMapping.msgType "Custom handler")⟩
  | none => ⟨f.name, sig, "partial", some "Custom handler"⟩

/-- The counts/complexity/feasibility part of an estimate response. -/
structure MigOut where
  total : Nat
  supported : Nat
  partialCount : Nat
  unsupported : Nat
  details : List MigDetail
  complexity : ℚ
  feasibility : String
  featureParity : Nat
  blockers : List String
deriving DecidableEq, Repr

/-- The estimator past its input validation.  The per-branch counter
increments of the source equal counting the produced detail statuses. -/
def migrateEstimate (contractAbi : List AbiFunc) : MigOut :=
  let functions := contractAbi.filter (fun i => i.type == "function")
  let details := functions.map migDetail
  let supported := (details.filter (fun d => d.status == "supported")).length
  let partial' := (details.filter (fun d => d.status == "partial")).length
  let unsupported := (details.filter (fun d => d.status == "unsupported")).length
  let total := if functions.length = 0 then 1 else functions.length
  let complexity : ℚ := (supported + partial' * 2 + unsupported * 4 : ℚ) / total
  ⟨total, supported, partial', unsupported, details, complexity,
   if complexity < 3/2 then "STRAIGHTFORWARD"
   else if complexity < 5/2 then "MODERATE"
   else if complexity < 7/2 then "COMPLEX" else "REQUIRES_REDESIGN",
   roundPct supported partial' total,
   if 0 < unsupported then ["Unsupported patterns"] else []⟩

/-! ### Observation helpers used by the theorems -/

deriving instance DecidableEq for Except

/-- A concrete stand-in for the external ABI decoder in closed statements
whose evaluation never reaches it. -/
def trivAbi : AbiDecoder := fun _ _ => Except.error "unreachable"

/-- The `to_address` of the first message of a successful translation. -/
def firstToAddr : TransResult → Option (Option String)
  | .success (Msg.send _ t _ _ :: _) _ _ _ _ _ => some t
  | _ => none

/-- The `grantee` of the first message of a successful translation. -/
def firstGrantee : TransResult → Option String
  | .success (Msg.grant _ grantee _ _ _ :: _) _ _ _ _ _ => some grantee
  | _ => none

/-! ### Selector evaluations

One lemma per signature string the claims hash, each a single kernel
evaluation of keccak-256, shared by the theorems below. -/

set_option maxRecDepth 100000 in
theorem selTransfer : selectorOf "transfer(address,uint256)" = "0xa9059cbb" := by decide

set_option maxRecDepth 100000 in
theorem selApprove : selectorOf "approve(address,uint256)" = "0x095ea7b3" := by decide

set_option maxRecDepth 100000 in
theorem selTransferFrom :
    selectorOf "transferFrom(address,address,uint256)" = "0x23b872dd" := by decide

set_option maxRecDepth 100000 in
theorem selSwapTokens :
    selectorOf "swapExactTokensForTokens(uint256,uint256,address[],address,uint256)" =
      "0x38ed1739" := by decide

set_option maxRecDepth 100000 in
theorem selSwapETH :
    selectorOf "swapExactETHForTokens(uint256,address[],address,uint256)" = "0x7ff36ab5" := by
  decide

set_option maxRecDepth 100000 in
theorem selAddLiquidity :
    selectorOf "addLiquidity(address,address,uint256,uint256,uint256,uint256,address,uint256)" =
      "0xe8e33700" := by decide

set_option maxRecDepth 100000 in
theorem selStake : selectorOf "stake(uint256)" = "0xa694fc3a" := by decide

set_option maxRecDepth 100000 in
theorem selWithdraw : selectorOf "withdraw(uint256)" = "0x2e1a7d4d" := by decide

set_option maxRecDepth 100000 in
theorem selGetReward : selectorOf "getReward()" = "0x3d18b912" := by decide

set_option maxRecDepth 100000 in
theorem selFlashLoanFull :
    selectorOf "flashLoan(address,address[],uint256[],uint256[],address,bytes,uint16)" =
      "0xab9c4b5d" := by decide

set_option maxRecDepth 100000 in
theorem selFlashLoanShort :
    selectorOf "flashLoan(address,uint256)" = "0x9d9e465c" := by decide

set_option maxRecDepth 100000 in
theorem selFoo : selectorOf "foo()" = "0xc2985578" := by decide

/-! ### Claim theorems -/

/-- C1: translating the intent `{action:"transfer", params:{amount:"1000000000"}}`
with context `{senderAddress:"A", recipientAddress:"B"}` yields exactly one
message, a bank send with `from_address = "A"`, `to_address = "B"` and the
amount string `"1000000000"` unchanged, and the result metadata carries
`matchType = DIRECT`. -/
theorem claim1_intent_transfer (now : Nat) :
    ∃ d, normalizeIntent "transfer" [("amount", "1000000000")] = some d ∧
      translate d ⟨some "A", some "B", none, none, none, none⟩ now =
        .success [.send "A" (some "B") "inj" (some "1000000000")]
          "Transfer 1000000000 tokens" (98) .DIRECT [] "transfer(address,uint256)" :=
  ⟨_, rfl, rfl⟩

/-- C5: whenever a decoded call's selector resolves to a registry entry whose
mapping has `matchType = UNSUPPORTED`, `translate` fails with the
`UNSUPPORTED_PATTERN` error (carrying the mapping's notes) and produces no
message: the failure shape has no messages list at all. -/
theorem claim5_unsupported_no_messages (d : DecodedCall) (ctx : Ctx) (now : Nat)
    (fi : FuncInfo) (hdb : dbLookup d.selector = some fi)
    (hun : fi.injectiveMapping.matchType = MatchType.UNSUPPORTED) :
    translate d ctx now = .failure "UNSUPPORTED_PATTERN" fi.injectiveMapping.notes := by
  unfold translate
  rw [hdb]
  simp [hun]

/-- Witness for C5 at the registered flash-loan selector. -/
theorem claim5_witness :
    translate ⟨"0xab9c4b5d", some "flashLoan", none, none, [], true, none⟩ emptyCtx 0 =
      .failure "UNSUPPORTED_PATTERN" (some "Flash loans not supported on Injective") :=
  claim5_unsupported_no_messages _ _ _ flashLoanInfo (by decide) (by decide)

/-- C8: for every registry entry, re-deriving the selector from the entry's
signature string via `ethers.id` reproduces exactly the key under which the
entry is stored. -/
theorem claim8_selector_roundtrip :
    ∀ p ∈ SELECTOR_DB, selectorOf p.2.signature = p.1 := by
  intro p hp
  simp only [SELECTOR_DB, List.mem_cons, List.not_mem_nil, or_false] at hp
  rcases hp with rfl | rfl | rfl | rfl | rfl | rfl | rfl | rfl | rfl | rfl
  · exact selTransfer
  · exact selApprove
  · exact selTransferFrom
  · exact selSwapTokens
  · exact selSwapETH
  · exact selAddLiquidity
  · exact selStake
  · exact selWithdraw
  · exact selGetReward
  · exact selFlashLoanFull

/-- Witness for C8 at the transfer entry. -/
theorem claim8_witness : selectorOf ("0xa9059cbb", transferInfo).2.signature =
    ("0xa9059cbb", transferInfo).1 :=
  claim8_selector_roundtrip ("0xa9059cbb", transferInfo) (by decide)

/-- C9: for every registry entry, `matchType = UNSUPPORTED`, `confidence = 0`
and absence of a target message type are pairwise equivalent, and every
non-`UNSUPPORTED` entry has confidence in `(0, 1]` (that is, `(0, 100]`
hundredths) and a present target. -/
theorem claim9_mapping_invariant :
    ∀ p ∈ SELECTOR_DB,
      (p.2.injectiveMapping.matchType = MatchType.UNSUPPORTED ↔
        p.2.injectiveMapping.confidence = 0) ∧
      (p.2.injectiveMapping.matchType = MatchType.UNSUPPORTED ↔
        p.2.injectiveMapping.msgType = none) ∧
      (p.2.injectiveMapping.matchType ≠ MatchType.UNSUPPORTED →
        0 < p.2.injectiveMapping.confidence ∧ p.2.injectiveMapping.confidence ≤ 100 ∧
        p.2.injectiveMapping.msgType ≠ none) := by decide

/-- Witness for C9 at the flash-loan entry. -/
theorem claim9_witness :
    (("0xab9c4b5d", flashLoanInfo).2.injectiveMapping.matchType = MatchType.UNSUPPORTED ↔
      ("0xab9c4b5d", flashLoanInfo).2.injectiveMapping.confidence = 0) ∧
    (("0xab9c4b5d", flashLoanInfo).2.injectiveMapping.matchType = MatchType.UNSUPPORTED ↔
      ("0xab9c4b5d", flashLoanInfo).2.injectiveMapping.msgType = none) ∧
    (("0xab9c4b5d", flashLoanInfo).2.injectiveMapping.matchType ≠ MatchType.UNSUPPORTED →
      0 < ("0xab9c4b5d", flashLoanInfo).2.injectiveMapping.confidence ∧
      ("0xab9c4b5d", flashLoanInfo).2.injectiveMapping.confidence ≤ 100 ∧
      ("0xab9c4b5d", flashLoanInfo).2.injectiveMapping.msgType ≠ none) :=
  claim9_mapping_invariant ("0xab9c4b5d", flashLoanInfo) (by decide)

/-- C10: calldata that is exactly a registered selector (no parameter bytes)
decodes successfully with an empty parameter list — no decode failure even
though the entry's parameter shape is non-empty (witnessed by the transfer
entry) — and the subsequent translation builds its message with the
parameter-derived amount absent. -/
theorem claim10_selector_only_calldata :
    (∀ (abi : AbiDecoder), ∀ p ∈ SELECTOR_DB,
      decodeCalldata abi p.1 =
        .ok ⟨p.1, some p.2.name, some p.2.signature, some p.2.category, [], true, none⟩) ∧
    transferInfo.paramTypes ≠ [] ∧
    (∀ now : Nat,
      translate ⟨"0xa9059cbb", some "transfer", some "transfer(address,uint256)", some "token",
          [], true, none⟩ emptyCtx now =
        .success [.send "inj1xxx" (some "inj1recipient") "inj" none]
          "Transfer undefined tokens" (98) .DIRECT [] "transfer(address,uint256)") := by
  refine ⟨?_, by decide, fun now => rfl⟩
  intro abi p hp
  simp only [SELECTOR_DB, List.mem_cons, List.not_mem_nil, or_false] at hp
  rcases hp with rfl | rfl | rfl | rfl | rfl | rfl | rfl | rfl | rfl | rfl <;> rfl

/-- Witness for C10: the first conjunct applied to the transfer key with a
concrete ABI decoder. -/
theorem claim10_witness :
    decodeCalldata trivAbi ("0xa9059cbb", transferInfo).1 =
      .ok ⟨("0xa9059cbb", transferInfo).1, some ("0xa9059cbb", transferInfo).2.name,
           some ("0xa9059cbb", transferInfo).2.signature,
           some ("0xa9059cbb", transferInfo).2.category, [], true, none⟩ :=
  claim10_selector_only_calldata.1 trivAbi ("0xa9059cbb", transferInfo) (by decide)

/-- The per-pattern verdicts of the C2 run, as separate evaluations. -/
theorem scoreTransferPattern :
    scorePattern "transfer(address,uint256)" =
      ⟨"transfer(address,uint256)", "SUPPORTED", some "/cosmos.bank.v1beta1.MsgSend",
       some 98, none⟩ := by
  unfold scorePattern
  rw [selTransfer]
  decide

theorem scoreApprovePattern :
    scorePattern "approve(address,uint256)" =
      ⟨"approve(address,uint256)", "PARTIAL", some "/cosmos.authz.v1beta1.MsgGrant",
       some 85, some "Injective uses authz module instead of per-token approvals"⟩ := by
  unfold scorePattern
  rw [selApprove]
  decide

theorem scoreFlashLoanPattern :
    scorePattern "flashLoan(address,uint256)" =
      ⟨"flashLoan(address,uint256)", "UNSUPPORTED", none, none,
       some "Flash loans not supported"⟩ := by
  unfold scorePattern
  rw [selFlashLoanShort]
  decide

set_option maxRecDepth 10000 in
/-- C2: on the pattern list `[transfer(address,uint256), approve(address,uint256),
flashLoan(address,uint256)]` the scorer returns verdicts SUPPORTED, PARTIAL
and UNSUPPORTED, aggregate score `round(100*(1+0.5)/3) = 50` and status
`PARTIALLY_COMPATIBLE`; the flashLoan pattern's derived selector has no
registry entry, so its verdict comes from the lexical flash keyword
heuristic (its result carries no registry equivalent or confidence). -/
theorem claim2_compatibility_run :
    compatibility ["transfer(address,uint256)", "approve(address,uint256)",
        "flashLoan(address,uint256)"] [] =
      ⟨50, "PARTIALLY_COMPATIBLE", "1/3 supported",
       [⟨"transfer(address,uint256)", "SUPPORTED", some "/cosmos.bank.v1beta1.MsgSend",
         some 98, none⟩,
        ⟨"approve(address,uint256)", "PARTIAL", some "/cosmos.authz.v1beta1.MsgGrant",
         some 85, some "Injective uses authz module instead of per-token approvals"⟩,
        ⟨"flashLoan(address,uint256)", "UNSUPPORTED", none, none,
         some "Flash loans not supported"⟩],
       ["Some patterns need workarounds", "Unsupported patterns require redesign"]⟩ ∧
    dbLookup (selectorOf "flashLoan(address,uint256)") = none := by
  constructor
  · unfold compatibility
    simp only [List.map_cons, List.map_nil, scoreTransferPattern,
      scoreApprovePattern, scoreFlashLoanPattern]
    decide
  · rw [selFlashLoanShort]
    decide

/-- The derived selector of the unregistered signature `foo()` misses the
registry. -/
theorem dbLookupFoo : dbLookup (selectorOf (sigOf ⟨"function", "foo", []⟩)) = none := by
  have h : sigOf ⟨"function", "foo", []⟩ = "foo()" := rfl
  rw [h, selFoo]
  decide

set_option maxRecDepth 10000 in
/-- C3 counterexample: the migration estimator classifies an unresolved
function (signature `foo()`, whose derived selector has no registry entry)
as `partial` with a `Custom handler` path, so it lands in the partial
tally, not — as the claim states — the unsupported tally. -/
theorem claim3_counterexample :
    (migrateEstimate [⟨"function", "foo", []⟩]).unsupported = 0 ∧
    (migrateEstimate [⟨"function", "foo", []⟩]).partialCount = 1 ∧
    (migrateEstimate [⟨"function", "foo", []⟩]).details =
      [⟨"foo", "foo()", "partial", some "Custom handler"⟩] ∧
    dbLookup (selectorOf (sigOf ⟨"function", "foo", []⟩)) = none := by
  have hd : migDetail ⟨"function", "foo", []⟩ =
      ⟨"foo", "foo()", "partial", some "Custom handler"⟩ := by
    unfold migDetail
    simp only [dbLookupFoo]
    decide
  refine ⟨?_, ?_, ?_, dbLookupFoo⟩ <;>
    · unfold migrateEstimate
      simp only [List.map_cons, List.map_nil, hd]
      decide

/-- C3 amended: the estimator classifies DIRECT as `supported` and
UNSUPPORTED as `unsupported`, and everything else — SEMANTIC, COMPOSITE
**and** unresolved signatures (no registry entry for the derived
selector) — as `partial`; an unresolved function is therefore counted in
the partial tally. -/
theorem claim3_amended (f : AbiFunc) :
    (∀ i, dbLookup (selectorOf (sigOf f)) = some i →
      (i.injectiveMapping.matchType = MatchType.DIRECT → (migDetail f).status = "supported") ∧
      (i.injectiveMapping.matchType = MatchType.UNSUPPORTED →
        (migDetail f).status = "unsupported") ∧
      (i.injectiveMapping.matchType = MatchType.SEMANTIC ∨
          i.injectiveMapping.matchType = MatchType.COMPOSITE →
        (migDetail f).status = "partial")) ∧
    (dbLookup (selectorOf (sigOf f)) = none → (migDetail f).status = "partial") := by
  constructor
  · intro i hi
    refine ⟨fun hD => ?_, fun hU => ?_, fun hSC => ?_⟩
    · unfold migDetail
      simp only [hi, hD, if_true]
    · unfold migDetail
      simp only [hi, hU]
      simp
    · rcases hSC with h | h <;>
        · unfold migDetail
          simp only [hi, h]
          simp
  · intro hn
    unfold migDetail
    simp only [hn]

/-- Witness for C3 amended: the unresolved `foo()` function is classified
`partial`. -/
theorem claim3_witness : (migDetail ⟨"function", "foo", []⟩).status = "partial" :=
  (claim3_amended ⟨"function", "foo", []⟩).2 dbLookupFoo

/-- C4 counterexample: well-formed calldata whose selector is unknown
(`0xdeadbeef`) is **not** treated as a valid reportable result: the decoder
marks it `decoded: false` with an `Unknown selector` error and the route
rejects it with 400 `DECODE_FAILED` — the same error channel as a
parameter-decode failure — contradicting the claim that only a
parameter-decode failure yields DecodeFailure. -/
theorem claim4_counterexample :
    translateCalldataRoute trivAbi "0xdeadbeef" emptyCtx 0 =
      .err 400 "DECODE_FAILED" (some "Unknown selector") ∧
    decodeCalldata trivAbi "0xdeadbeef" =
      .ok ⟨"0xdeadbeef", none, none, none, [], false, some "Unknown selector"⟩ := by decide

/-- C4 amended: a violated `0x`-prefix/length precondition makes the
decoder throw `Invalid calldata`, which the route's catch-all surfaces as
500 `ERROR`; well-formed calldata with an unknown selector is returned
without throwing, but as a `decoded:false` object carrying the error
string `Unknown selector`, which the translate route rejects with 400
`DECODE_FAILED` exactly like a parameter-decode failure. -/
theorem claim4_amended (abi : AbiDecoder) (calldata : String) (ctx : Ctx) (now : Nat) :
    (¬ (['0', 'x'] = calldata.data.take 2) ∨ strLen calldata < 10 →
      decodeCalldata abi calldata = .error "Invalid calldata" ∧
      translateCalldataRoute abi calldata ctx now = .err 500 "ERROR" (some "Invalid calldata")) ∧
    (['0', 'x'] = calldata.data.take 2 → 10 ≤ strLen calldata →
      dbLookup (strLower (strTake calldata 10)) = none →
      decodeCalldata abi calldata =
        .ok ⟨strLower (strTake calldata 10), none, none, none, [], false,
             some "Unknown selector"⟩ ∧
      translateCalldataRoute abi calldata ctx now =
        .err 400 "DECODE_FAILED" (some "Unknown selector")) := by
  constructor
  · intro hbad
    have h1 : decodeCalldata abi calldata = .error "Invalid calldata" := by
      unfold decodeCalldata
      rw [if_pos hbad]
    refine ⟨h1, ?_⟩
    unfold translateCalldataRoute
    rw [h1]
  · intro hpre hlen hdb
    have h1 : decodeCalldata abi calldata =
        .ok ⟨strLower (strTake calldata 10), none, none, none, [], false,
             some "Unknown selector"⟩ := by
      unfold decodeCalldata
      rw [if_neg (not_or.mpr ⟨not_not_intro hpre, not_lt.mpr hlen⟩)]
      simp only [hdb]
    refine ⟨h1, ?_⟩
    unfold translateCalldataRoute
    rw [h1]
    rfl

/-- Witness for C4 amended: malformed calldata `0x123` (shorter than one
selector chunk). -/
theorem claim4_witness :
    decodeCalldata trivAbi "0x123" = .error "Invalid calldata" ∧
    translateCalldataRoute trivAbi "0x123" emptyCtx 0 =
      .err 500 "ERROR" (some "Invalid calldata") :=
  (claim4_amended trivAbi "0x123" emptyCtx 0).1 (by decide)

/-- C6 counterexample: in the transferFrom builder the decoded `to`
parameter (`"P"`) wins over the context's recipient (`"C"`), refuting the
claim that the context field always takes precedence over the decoded
parameter. -/
theorem claim6_counterexample :
    firstToAddr (translate ⟨"0x23b872dd", some "transferFrom", none, none,
        [⟨"from", none, "F"⟩, ⟨"to", none, "P"⟩, ⟨"amount", none, "5"⟩], true, none⟩
      ⟨some "S", some "C", none, none, none, none⟩ 0) = some (some "P") ∧
    ("P" : String) ≠ "C" := by decide

/-- C6 amended: the transfer and approve builders resolve their actor
address context-first (an explicit non-empty context field always wins),
but the transferFrom builder resolves `to` parameter-first: a non-empty
decoded `to` parameter wins regardless of the context's recipient. -/
theorem claim6_amended (d : DecodedCall) (ctx : Ctx) (now : Nat) :
    (d.selector = "0xa9059cbb" → ∀ r, ctx.recipientAddress = some r → r ≠ "" →
      firstToAddr (translate d ctx now) = some (some r)) ∧
    (d.selector = "0x095ea7b3" → ∀ s, ctx.spenderAddress = some s → s ≠ "" →
      firstGrantee (translate d ctx now) = some s) ∧
    (d.selector = "0x23b872dd" → ∀ v, lookupParam d.parameters "to" = some v → v ≠ "" →
      firstToAddr (translate d ctx now) = some (some v)) := by
  have hT : dbLookup "0xa9059cbb" = some transferInfo := by decide
  have hA : dbLookup "0x095ea7b3" = some approveInfo := by decide
  have hF : dbLookup "0x23b872dd" = some transferFromInfo := by decide
  refine ⟨fun hsel r hr hne => ?_, fun hsel s hs hne => ?_, fun hsel v hv hne => ?_⟩
  · unfold translate
    rw [hsel, hT]
    simp [jsOrS, hr, hne, firstToAddr, transferInfo]
  · unfold translate
    rw [hsel, hA]
    simp [jsOrS, hs, hne, firstGrantee, approveInfo]
  · unfold translate
    rw [hsel, hF]
    simp [jsOr, hv, hne, firstToAddr, transferFromInfo]

/-- Witness for C6 amended: the transferFrom conjunct at a concrete call. -/
theorem claim6_witness :
    firstToAddr (translate ⟨"0x23b872dd", some "transferFrom", none, none,
        [⟨"to", none, "P"⟩], true, none⟩ emptyCtx 0) = some (some "P") :=
  (claim6_amended ⟨"0x23b872dd", some "transferFrom", none, none,
      [⟨"to", none, "P"⟩], true, none⟩ emptyCtx 0).2.2 rfl "P" (by decide) (by decide)

/-- C7 counterexample: translating the same approve call twice with
identical input but at two different clock instants yields different
output — the MsgGrant's expiration is derived from `Date.now()`, a
time-dependent field whose exclusion the spec does not document. -/
theorem claim7_counterexample :
    translate ⟨"0x095ea7b3", some "approve", none, none, [⟨"amount", none, "5"⟩], true, none⟩
        emptyCtx 0 ≠
    translate ⟨"0x095ea7b3", some "approve", none, none, [⟨"amount", none, "5"⟩], true, none⟩
        emptyCtx 1 := by decide

/-- C7 amended: the scorer and estimator are clock-free functions of their
input, and translation is idempotent for every function except approve:
whenever the resolved entry is not the approve builder, the result is
independent of the clock instant.  (The approve builder embeds
`Date.now() + 365 days` in the grant expiration, as the counterexample
shows.) -/
theorem claim7_amended (d : DecodedCall) (ctx : Ctx) (n₁ n₂ : Nat)
    (h : (dbLookup d.selector).map FuncInfo.name ≠ some "approve") :
    translate d ctx n₁ = translate d ctx n₂ := by
  unfold translate
  cases hdb : dbLookup d.selector with
  | none => rfl
  | some fi =>
    rw [hdb] at h
    simp only [Option.map_some'] at h
    have hn : fi.name ≠ "approve" := fun he => h (by rw [he])
    by_cases hu : fi.injectiveMapping.matchType = MatchType.UNSUPPORTED
    · simp [hu]
    · simp only [if_neg hu]
      split <;> simp_all

/-- Witness for C7 amended at a transfer call. -/
theorem claim7_witness :
    translate ⟨"0xa9059cbb", some "transfer", none, none, [⟨"amount", none, "7"⟩], true, none⟩
        emptyCtx 0 =
    translate ⟨"0xa9059cbb", some "transfer", none, none, [⟨"amount", none, "7"⟩], true, none⟩
        emptyCtx 1 :=
  claim7_amended ⟨"0xa9059cbb", some "transfer", none, none, [⟨"amount", none, "7"⟩], true, none⟩
    emptyCtx 0 1 (by decide)

end TransactIQ
